import Mathlib

/-!
Shallow embedding of `src/husky_base/src/husky_base.cpp` (class `HuskyBase`).

Modelling conventions:
* C++ `double` values are embedded as exact rationals `ℚ`.  The only
  floating-point feature the code relies on is the quiet-NaN sentinel used to
  mark uninitialised joint entries (`std::numeric_limits<double>::quiet_NaN()`
  together with `std::isnan`), so state entries are embedded as `Option ℚ`
  with `none` playing the role of NaN.  IEEE semantics that matter are kept:
  arithmetic involving NaN yields NaN, and every ordered comparison against
  NaN is false.
* The external drivetrain collaborator (`horizon_legacy`) is embedded by
  passing its optional samples as explicit arguments: a
  `requestData` call that times out is `none`, a successful one is
  `some (left, right)`.
* The joint state/command vectors `hw_states_position_`,
  `hw_states_position_offset_`, `hw_states_velocity_`, `hw_commands_` are
  lists of `Option ℚ`; the lifecycle status enum and `return_type` are
  inductive types.
-/

namespace HuskyBase

/-- `hardware_interface::return_type`. -/
inductive ReturnType where
  | OK : ReturnType
  | ERROR : ReturnType
deriving DecidableEq, Repr

/-- `hardware_interface::status` (the lifecycle status field `status_`). -/
inductive Status where
  | UNCONFIGURED : Status
  | CONFIGURED : Status
  | STARTED : Status
  | STOPPED : Status
deriving DecidableEq, Repr

/-- `hardware_interface::HW_IF_VELOCITY`. -/
def HW_IF_VELOCITY : String := "velocity"

/-- `hardware_interface::HW_IF_POSITION`. -/
def HW_IF_POSITION : String := "position"

/-- `hardware_interface::ComponentInfo`: one joint descriptor, with the names
of its command interfaces and state interfaces. -/
structure ComponentInfo where
  name : String
  command_interfaces : List String
  state_interfaces : List String
deriving DecidableEq, Repr

/-- The part of `hardware_interface::HardwareInfo` the code uses: the joint
descriptors and the numeric hardware parameters (already parsed from their
string form, as `std::stod` does in `configure`). -/
structure HardwareInfo where
  joints : List ComponentInfo
  hw_start_duration_sec : ℚ
  hw_stop_duration_sec : ℚ
  wheel_diameter : ℚ
  max_accel : ℚ
  max_speed : ℚ
  polling_timeout : ℚ
deriving DecidableEq, Repr

/-- The mutable fields of class `HuskyBase`.  A state-array entry `none`
embeds the quiet-NaN sentinel. -/
structure State where
  status : Status
  hw_states_position : List (Option ℚ)
  hw_states_position_offset : List (Option ℚ)
  hw_states_velocity : List (Option ℚ)
  hw_commands : List (Option ℚ)
  wheel_diameter : ℚ
  max_accel : ℚ
  max_speed : ℚ
deriving DecidableEq, Repr

/-- NaN-propagating addition on embedded doubles. -/
def nadd : Option ℚ → Option ℚ → Option ℚ
  | some a, some b => some (a + b)
  | _, _ => none

/-- NaN-propagating subtraction on embedded doubles. -/
def nsub : Option ℚ → Option ℚ → Option ℚ
  | some a, some b => some (a - b)
  | _, _ => none

/-- IEEE comparison `std::abs x < c`: false whenever `x` is NaN. -/
def nabsLt (x : Option ℚ) (c : ℚ) : Bool :=
  match x with
  | some d => |d| < c
  | none => false

/-- `HuskyBase::linearToAngular`: `travel / wheel_diameter_ * 2.0`. -/
def linearToAngular (wheel_diameter travel : ℚ) : ℚ :=
  travel / wheel_diameter * 2

/-- `HuskyBase::angularToLinear`: `angle * wheel_diameter_ / 2.0`. -/
def angularToLinear (wheel_diameter angle : ℚ) : ℚ :=
  angle * wheel_diameter / 2

/-- `enc->getTravel(i % 2)` (and the matching left/right selection in the
speed loop): channel `LEFT = 0` is the first component, `RIGHT = 1` the
second. -/
def travelAt (enc : ℚ × ℚ) (i : ℕ) : ℚ :=
  if i % 2 = 0 then enc.1 else enc.2

/-- `HuskyBase::limitDifferentialSpeed` on finite values: if
`max(|l|, |r|) > max_speed_`, both speeds are multiplied by
`max_speed_ / max(|l|, |r|)`; otherwise they are left unchanged. -/
def limitDifferentialSpeed (max_speed l r : ℚ) : ℚ × ℚ :=
  let large_speed := max |l| |r|
  if large_speed > max_speed then
    (l * (max_speed / large_speed), r * (max_speed / large_speed))
  else
    (l, r)

/-- `HuskyBase::limitDifferentialSpeed` on embedded doubles, following the
`(a < b) ? b : a` definition of `std::max` with NaN comparisons false:
* both speeds finite — the finite computation `limitDifferentialSpeed`;
* left finite, right NaN — `std::max(|l|, NaN)` returns its *first*
  argument `|l|` (because `|l| < NaN` is false), so if `|l| > max_speed_`
  the left speed is scaled by `max_speed_ / |l|` while the right product
  `NaN * scale` stays NaN;
* left NaN — `std::max(NaN, x)` returns NaN, `NaN > max_speed_` is false,
  both values pass through unchanged. -/
def limitDifferentialSpeedN (max_speed : ℚ) (l r : Option ℚ) : Option ℚ × Option ℚ :=
  match l, r with
  | some a, some b =>
    let p := limitDifferentialSpeed max_speed a b
    (some p.1, some p.2)
  | some a, none =>
    if |a| > max_speed then (some (a * (max_speed / |a|)), none) else (some a, none)
  | none, _ => (l, r)

/-- The `(left, right, left_accel, right_accel)` argument tuple of the
`horizon_legacy::controlSpeed` dispatch. -/
structure Dispatch where
  left : Option ℚ
  right : Option ℚ
  left_accel : ℚ
  right_accel : ℚ
deriving DecidableEq, Repr

/-- `HuskyBase::writeCommandsToHardware`: converts `hw_commands_[LEFT]` and
`hw_commands_[RIGHT]` to linear speeds, limits them, and produces the
`controlSpeed` dispatch. -/
def writeCommandsToHardware (s : State) : Dispatch :=
  let diff_speed_left := Option.map (angularToLinear s.wheel_diameter) (s.hw_commands.getD 0 none)
  let diff_speed_right := Option.map (angularToLinear s.wheel_diameter) (s.hw_commands.getD 1 none)
  let p := limitDifferentialSpeedN s.max_speed diff_speed_left diff_speed_right
  ⟨p.1, p.2, s.max_accel, s.max_accel⟩

/-- One iteration of the position loop of `HuskyBase::updateJointsFromHardware`
(lines 94-110): `delta = linearToAngular(travel) - position - offset`; if
`|delta| < 1.0` the delta is applied to the position, otherwise it is folded
into the offset.  Returns the new `(position, offset)` pair. -/
def updatePositionJoint (wheel_diameter travel : ℚ) (p o : Option ℚ) :
    Option ℚ × Option ℚ :=
  let delta := nsub (nsub (some (linearToAngular wheel_diameter travel)) p) o
  if nabsLt delta 1 then
    (nadd p delta, o)
  else
    (p, nadd o delta)

/-- `HuskyBase::updateJointsFromHardware`: if an encoder sample is present,
run the position/offset update for every joint (joint `i` reads travel
channel `i % 2`); if a speed sample is present, assign every joint velocity
from the matching channel.  Absent samples leave the state untouched. -/
def updateJointsFromHardware (encData spdData : Option (ℚ × ℚ)) (s : State) : State :=
  let s1 :=
    match encData with
    | some enc =>
      let pairs := (List.range s.hw_states_position.length).map fun i =>
        updatePositionJoint s.wheel_diameter (travelAt enc i)
          (s.hw_states_position.getD i none)
          (s.hw_states_position_offset.getD i none)
      { s with
        hw_states_position := pairs.map Prod.fst
        hw_states_position_offset := pairs.map Prod.snd }
    | none => s
  match spdData with
  | some spd =>
    { s1 with
      hw_states_velocity := (List.range s1.hw_states_velocity.length).map fun i =>
        some (linearToAngular s1.wheel_diameter (travelAt spd i)) }
  | none => s1

/-- `HuskyBase::resetTravelOffset`: on a successful encoder read, set
`hw_states_position_offset_[i] = linearToAngular(enc->getTravel(i % 2))` for
every joint.  On a failed read it only emits an `RCLCPP_FATAL` log: no state
is changed and no error is propagated to the caller. -/
def resetTravelOffset (encData : Option (ℚ × ℚ)) (s : State) : State :=
  match encData with
  | some enc =>
    { s with
      hw_states_position_offset :=
        (List.range s.hw_states_position_offset.length).map fun i =>
          some (linearToAngular s.wheel_diameter (travelAt enc i)) }
  | none => s

/-- The per-joint interface-shape validation of `HuskyBase::configure`
(lines 168-216): exactly one command interface named `velocity`, and exactly
two state interfaces named `position` then `velocity`.  The `&&`
short-circuit mirrors the early `return ERROR` of the source. -/
def jointShapeOk (j : ComponentInfo) : Bool :=
  j.command_interfaces.length == 1 &&
  j.command_interfaces.getD 0 "" == HW_IF_VELOCITY &&
  j.state_interfaces.length == 2 &&
  j.state_interfaces.getD 0 "" == HW_IF_POSITION &&
  j.state_interfaces.getD 1 "" == HW_IF_VELOCITY

/-- `std::vector<double>::resize(n, NaN)`: existing entries up to `n` are
preserved, the vector is truncated if it was longer, and NaN entries are
appended if it was shorter. -/
def resizeVec (l : List (Option ℚ)) (n : ℕ) : List (Option ℚ) :=
  l.take n ++ List.replicate (n - l.length) none

/-- `HuskyBase::configure`.  `configureDefaultOk` is the result of the
framework call `configure_default(info)`; `encData` is the optional encoder
sample obtained by `resetTravelOffset`.  The four joint vectors are
`resize(n, NaN)`-d — on a fresh object they are empty, so this fills them
with `n` NaN entries, while entries already present are preserved.
Note the order of the source: the vectors are resized, the parameters stored
and `resetTravelOffset` run before the joint-shape validation loop; only
after every joint passes is `status_` set to `CONFIGURED`. -/
def configure (configureDefaultOk : Bool) (encData : Option (ℚ × ℚ))
    (info : HardwareInfo) (s : State) : ReturnType × State :=
  if !configureDefaultOk then
    (ReturnType.ERROR, s)
  else
    let n := info.joints.length
    let s1 : State :=
      { s with
        hw_states_position := resizeVec s.hw_states_position n
        hw_states_position_offset := resizeVec s.hw_states_position_offset n
        hw_states_velocity := resizeVec s.hw_states_velocity n
        hw_commands := resizeVec s.hw_commands n
        wheel_diameter := info.wheel_diameter
        max_accel := info.max_accel
        max_speed := info.max_speed }
    let s2 := resetTravelOffset encData s1
    if info.joints.all jointShapeOk then
      (ReturnType.OK, { s2 with status := Status.CONFIGURED })
    else
      (ReturnType.ERROR, s2)

/-- The seeding test of `HuskyBase::start`: `std::isnan(hw_states_position_[i])`
for an index `i` of the position vector. -/
def posIsNaNAt (s : State) (i : ℕ) : Bool :=
  s.hw_states_position.get? i == some none

/-- `HuskyBase::start`: after the warm-up countdown (pure delay, no state
effect), every joint whose *position* entry is NaN has its position, offset,
velocity and command set to `0`; all other entries are untouched.  Then
`status_` becomes `STARTED` and `OK` is returned. -/
def start (s : State) : ReturnType × State :=
  (ReturnType.OK,
   { s with
     hw_states_position :=
       s.hw_states_position.mapIdx fun i p => if posIsNaNAt s i then some 0 else p
     hw_states_position_offset :=
       s.hw_states_position_offset.mapIdx fun i o => if posIsNaNAt s i then some 0 else o
     hw_states_velocity :=
       s.hw_states_velocity.mapIdx fun i v => if posIsNaNAt s i then some 0 else v
     hw_commands :=
       s.hw_commands.mapIdx fun i c => if posIsNaNAt s i then some 0 else c
     status := Status.STARTED })

/-- `HuskyBase::stop`: after the shutdown countdown, set `status_` to
`STOPPED` and return `OK`. -/
def stop (s : State) : ReturnType × State :=
  (ReturnType.OK, { s with status := Status.STOPPED })

/-- `HuskyBase::read`: calls `updateJointsFromHardware` and returns `OK`
unconditionally.  There is no lifecycle-status check. -/
def read (encData spdData : Option (ℚ × ℚ)) (s : State) : ReturnType × State :=
  (ReturnType.OK, updateJointsFromHardware encData spdData s)

/-- `HuskyBase::write`: calls `writeCommandsToHardware` (which dispatches
`controlSpeed` to the drivetrain) and returns `OK` unconditionally.  The
member state is not mutated and there is no lifecycle-status check. -/
def write (s : State) : ReturnType × State × Dispatch :=
  (ReturnType.OK, s, writeCommandsToHardware s)

/-- Element access into a list built by mapping over `List.range`. -/
theorem getD_map_range {α : Type} (n : ℕ) (f : ℕ → α) (i : ℕ) (hi : i < n) (d : α) :
    ((List.range n).map f).getD i d = f i := by
  simp [List.getD_eq_getElem?_getD, List.getElem?_map, List.getElem?_range, hi]

/-- With an encoder sample present, joint `i` of the updated state is the
per-joint position/offset update applied to that joint's prior entries. -/
theorem update_enc_pos_getD (s : State) (enc : ℚ × ℚ) (spdData : Option (ℚ × ℚ))
    (i : ℕ) (hi : i < s.hw_states_position.length) :
    (updateJointsFromHardware (some enc) spdData s).hw_states_position.getD i none =
      (updatePositionJoint s.wheel_diameter (travelAt enc i)
        (s.hw_states_position.getD i none)
        (s.hw_states_position_offset.getD i none)).1 := by
  cases spdData <;>
    simp [updateJointsFromHardware, List.map_map, Function.comp,
          List.getD_eq_getElem?_getD, List.getElem?_map, List.getElem?_range hi]

/-- Offset counterpart of `update_enc_pos_getD`. -/
theorem update_enc_off_getD (s : State) (enc : ℚ × ℚ) (spdData : Option (ℚ × ℚ))
    (i : ℕ) (hi : i < s.hw_states_position.length) :
    (updateJointsFromHardware (some enc) spdData s).hw_states_position_offset.getD i none =
      (updatePositionJoint s.wheel_diameter (travelAt enc i)
        (s.hw_states_position.getD i none)
        (s.hw_states_position_offset.getD i none)).2 := by
  cases spdData <;>
    simp [updateJointsFromHardware, List.map_map, Function.comp,
          List.getD_eq_getElem?_getD, List.getElem?_map, List.getElem?_range hi]

/-- C1: for every joint `i` with finite prior position `p` and offset `o`,
an update with a travel sample computes
`delta = linearToAngular(travel(i % 2)) - p - o`; if `|delta| < 1` the new
position is `p + delta` and the offset is unchanged, and if `|delta| ≥ 1`
the position is unchanged and the new offset is `o + delta`. -/
theorem C1_update_delta_rule (s : State) (enc : ℚ × ℚ) (spdData : Option (ℚ × ℚ))
    (i : ℕ) (p o : ℚ)
    (hi : i < s.hw_states_position.length)
    (hp : s.hw_states_position.getD i none = some p)
    (ho : s.hw_states_position_offset.getD i none = some o) :
    (|linearToAngular s.wheel_diameter (travelAt enc i) - p - o| < 1 →
      (updateJointsFromHardware (some enc) spdData s).hw_states_position.getD i none =
        some (p + (linearToAngular s.wheel_diameter (travelAt enc i) - p - o)) ∧
      (updateJointsFromHardware (some enc) spdData s).hw_states_position_offset.getD i none =
        some o) ∧
    (1 ≤ |linearToAngular s.wheel_diameter (travelAt enc i) - p - o| →
      (updateJointsFromHardware (some enc) spdData s).hw_states_position.getD i none =
        some p ∧
      (updateJointsFromHardware (some enc) spdData s).hw_states_position_offset.getD i none =
        some (o + (linearToAngular s.wheel_diameter (travelAt enc i) - p - o))) := by
  rw [update_enc_pos_getD s enc spdData i hi, update_enc_off_getD s enc spdData i hi, hp, ho]
  unfold updatePositionJoint nsub nadd nabsLt
  constructor
  · intro h
    simp [h]
  · intro h
    simp [not_lt.mpr h]

/-- Witness for `C1_update_delta_rule` at a concrete state: one joint with
position 0, offset 0, wheel diameter 1, travel 0.25 (delta = 1/2, accepted). -/
theorem C1_update_delta_rule_witness :
    (0:ℕ) < ([some (0:ℚ)] : List (Option ℚ)).length ∧
    (([some (0:ℚ)] : List (Option ℚ)).getD 0 none = some 0) ∧
    ((|linearToAngular 1 (travelAt (1/4, 1/4) 0) - 0 - 0| < 1 →
      (updateJointsFromHardware (some (1/4, 1/4)) none
        ⟨Status.STARTED, [some 0], [some 0], [some 0], [some 0], 1, 1, 1⟩).hw_states_position.getD 0 none =
        some (0 + (linearToAngular 1 (travelAt (1/4, 1/4) 0) - 0 - 0)) ∧
      (updateJointsFromHardware (some (1/4, 1/4)) none
        ⟨Status.STARTED, [some 0], [some 0], [some 0], [some 0], 1, 1, 1⟩).hw_states_position_offset.getD 0 none =
        some 0) ∧
    (1 ≤ |linearToAngular 1 (travelAt (1/4, 1/4) 0) - 0 - 0| →
      (updateJointsFromHardware (some (1/4, 1/4)) none
        ⟨Status.STARTED, [some 0], [some 0], [some 0], [some 0], 1, 1, 1⟩).hw_states_position.getD 0 none =
        some 0 ∧
      (updateJointsFromHardware (some (1/4, 1/4)) none
        ⟨Status.STARTED, [some 0], [some 0], [some 0], [some 0], 1, 1, 1⟩).hw_states_position_offset.getD 0 none =
        some (0 + (linearToAngular 1 (travelAt (1/4, 1/4) 0) - 0 - 0)))) :=
  ⟨by decide, rfl,
   C1_update_delta_rule ⟨Status.STARTED, [some 0], [some 0], [some 0], [some 0], 1, 1, 1⟩
     (1/4, 1/4) none 0 0 0 (by decide) rfl rfl⟩

/-- C2: with `max_speed > 0`, `limitDifferentialSpeed` is the identity when
`max(|l|, |r|) ≤ max_speed`; otherwise it scales both components by
`max_speed / max(|l|, |r|)`, so the limited pair has maximum magnitude
exactly `max_speed`, the ratio `l/r` is preserved (for `r ≠ 0`), and the
sign of each component is preserved. -/
theorem C2_limit_speed (max_speed l r : ℚ) (hms : 0 < max_speed) :
    (max |l| |r| ≤ max_speed → limitDifferentialSpeed max_speed l r = (l, r)) ∧
    (max_speed < max |l| |r| →
      max |(limitDifferentialSpeed max_speed l r).1|
          |(limitDifferentialSpeed max_speed l r).2| = max_speed ∧
      (r ≠ 0 →
        (limitDifferentialSpeed max_speed l r).1 / (limitDifferentialSpeed max_speed l r).2 =
          l / r) ∧
      ((0 < l → 0 < (limitDifferentialSpeed max_speed l r).1) ∧
       (l < 0 → (limitDifferentialSpeed max_speed l r).1 < 0) ∧
       (l = 0 → (limitDifferentialSpeed max_speed l r).1 = 0) ∧
       (0 < r → 0 < (limitDifferentialSpeed max_speed l r).2) ∧
       (r < 0 → (limitDifferentialSpeed max_speed l r).2 < 0) ∧
       (r = 0 → (limitDifferentialSpeed max_speed l r).2 = 0))) := by
  constructor
  · intro h
    simp [limitDifferentialSpeed, not_lt.mpr h]
  · intro h
    have hlarge : 0 < max |l| |r| := lt_trans hms h
    have hscale : 0 < max_speed / max |l| |r| := div_pos hms hlarge
    have hres : limitDifferentialSpeed max_speed l r =
        (l * (max_speed / max |l| |r|), r * (max_speed / max |l| |r|)) := by
      simp [limitDifferentialSpeed, h]
    rw [hres]
    refine ⟨?_, ?_, ?_⟩
    · have habs : ∀ x : ℚ, |x * (max_speed / max |l| |r|)| =
          |x| * (max_speed / max |l| |r|) := fun x => by
        rw [abs_mul, abs_of_pos hscale]
      simp only [habs]
      rw [← max_mul_of_nonneg _ _ (le_of_lt hscale)]
      field_simp
    · intro hr
      rw [mul_div_mul_right _ _ (ne_of_gt hscale)]
    · exact ⟨fun hl => mul_pos hl hscale,
             fun hl => mul_neg_of_neg_of_pos hl hscale,
             fun hl => by rw [hl, zero_mul],
             fun hr => mul_pos hr hscale,
             fun hr => mul_neg_of_neg_of_pos hr hscale,
             fun hr => by rw [hr, zero_mul]⟩

/-- Witness for `C2_limit_speed` at `max_speed = 1`, `(l, r) = (2, 1)`. -/
theorem C2_limit_speed_witness :
    (0:ℚ) < 1 ∧
    ((max |(2:ℚ)| |(1:ℚ)| ≤ 1 → limitDifferentialSpeed 1 2 1 = (2, 1)) ∧
     ((1:ℚ) < max |(2:ℚ)| |(1:ℚ)| →
      max |(limitDifferentialSpeed 1 2 1).1| |(limitDifferentialSpeed 1 2 1).2| = 1 ∧
      ((1:ℚ) ≠ 0 →
        (limitDifferentialSpeed 1 2 1).1 / (limitDifferentialSpeed 1 2 1).2 = 2 / 1) ∧
      ((0 < (2:ℚ) → 0 < (limitDifferentialSpeed 1 2 1).1) ∧
       ((2:ℚ) < 0 → (limitDifferentialSpeed 1 2 1).1 < 0) ∧
       ((2:ℚ) = 0 → (limitDifferentialSpeed 1 2 1).1 = 0) ∧
       (0 < (1:ℚ) → 0 < (limitDifferentialSpeed 1 2 1).2) ∧
       ((1:ℚ) < 0 → (limitDifferentialSpeed 1 2 1).2 < 0) ∧
       ((1:ℚ) = 0 → (limitDifferentialSpeed 1 2 1).2 = 0)))) :=
  ⟨by norm_num, C2_limit_speed 1 2 1 (by norm_num)⟩

/-- C7: a read cycle in which neither a travel sample nor a speed sample is
available returns `OK` and leaves the entire state (positions, offsets,
velocities, commands, status) unchanged. -/
theorem C7_read_no_samples (s : State) : read none none s = (ReturnType.OK, s) := rfl

/-- C8: for `wheel_diameter > 0` the two unit conversions are mutually
inverse: `angularToLinear (linearToAngular x) = x`. -/
theorem C8_roundtrip (wd x : ℚ) (h : 0 < wd) :
    angularToLinear wd (linearToAngular wd x) = x := by
  unfold angularToLinear linearToAngular
  field_simp

/-- Witness for `C8_roundtrip` at `wd = 1651/5000` (0.3302) and `x = 3`. -/
theorem C8_roundtrip_witness :
    (0:ℚ) < 1651/5000 ∧ angularToLinear (1651/5000) (linearToAngular (1651/5000) 3) = 3 :=
  ⟨by norm_num, C8_roundtrip (1651/5000) 3 (by norm_num)⟩

/-- `resetTravelOffset` leaves the position vector untouched. -/
theorem resetTravelOffset_pos (e : Option (ℚ × ℚ)) (s : State) :
    (resetTravelOffset e s).hw_states_position = s.hw_states_position := by
  cases e <;> rfl

/-- `resetTravelOffset` leaves the velocity vector untouched. -/
theorem resetTravelOffset_vel (e : Option (ℚ × ℚ)) (s : State) :
    (resetTravelOffset e s).hw_states_velocity = s.hw_states_velocity := by
  cases e <;> rfl

/-- `resetTravelOffset` leaves the command vector untouched. -/
theorem resetTravelOffset_cmd (e : Option (ℚ × ℚ)) (s : State) :
    (resetTravelOffset e s).hw_commands = s.hw_commands := by
  cases e <;> rfl

/-- `resetTravelOffset` leaves the lifecycle status untouched. -/
theorem resetTravelOffset_status (e : Option (ℚ × ℚ)) (s : State) :
    (resetTravelOffset e s).status = s.status := by
  cases e <;> rfl

/-- `resetTravelOffset` leaves the wheel diameter untouched. -/
theorem resetTravelOffset_wd (e : Option (ℚ × ℚ)) (s : State) :
    (resetTravelOffset e s).wheel_diameter = s.wheel_diameter := by
  cases e <;> rfl

/-- On a successful encoder read, `resetTravelOffset` sets entry `i` of the
offset vector to `linearToAngular(travel(i % 2))`. -/
theorem resetTravelOffset_off_getD (enc : ℚ × ℚ) (s : State) (i : ℕ)
    (hi : i < s.hw_states_position_offset.length) :
    (resetTravelOffset (some enc) s).hw_states_position_offset.getD i none =
      some (linearToAngular s.wheel_diameter (travelAt enc i)) := by
  simp [resetTravelOffset, List.getD_eq_getElem?_getD, List.getElem?_map,
        List.getElem?_range hi]

/-- C6: whenever some joint descriptor fails the shape validation (command
interface count ≠ 1, command interface not `velocity`, state interface count
≠ 2, or state interfaces not `position` then `velocity`), `configure`
returns `ERROR` and the lifecycle status field is left unchanged — starting
from `UNCONFIGURED` it never becomes `CONFIGURED`. -/
theorem C6_configure_rejects_bad_joint (cdo : Bool) (encData : Option (ℚ × ℚ))
    (info : HardwareInfo) (s : State) (j : ComponentInfo)
    (hj : j ∈ info.joints) (hbad : jointShapeOk j = false) :
    (configure cdo encData info s).1 = ReturnType.ERROR ∧
    (configure cdo encData info s).2.status = s.status := by
  have hall : info.joints.all jointShapeOk = false := by
    rcases Bool.eq_false_or_eq_true (info.joints.all jointShapeOk) with h | h
    · exact absurd (List.all_eq_true.mp h j hj) (by simp [hbad])
    · exact h
  cases cdo
  · exact ⟨rfl, rfl⟩
  · simp [configure, hall, resetTravelOffset_status]

/-- A joint descriptor with no command interface at all (invalid shape). -/
def badJoint : ComponentInfo := ⟨"bad_wheel_joint", [], []⟩

/-- A well-formed joint descriptor: one `velocity` command interface and
`position` then `velocity` state interfaces. -/
def goodJoint (nm : String) : ComponentInfo :=
  ⟨nm, [HW_IF_VELOCITY], [HW_IF_POSITION, HW_IF_VELOCITY]⟩

/-- Hardware info for a standard two-joint Husky with `wheel_diameter`
0.3302 m, `max_accel` 3, `max_speed` 1, `polling_timeout` 0.1 s. -/
def sampleInfo : HardwareInfo :=
  ⟨[goodJoint "front_left_wheel_joint", goodJoint "front_right_wheel_joint"],
   1, 1, 1651/5000, 3, 1, 1/10⟩

/-- `sampleInfo` with its first joint replaced by the invalid `badJoint`. -/
def badInfo : HardwareInfo :=
  ⟨[badJoint, goodJoint "front_right_wheel_joint"], 1, 1, 1651/5000, 3, 1, 1/10⟩

/-- A freshly constructed `HuskyBase` object: unconfigured, all joint
vectors empty. -/
def initialState : State := ⟨Status.UNCONFIGURED, [], [], [], [], 0, 0, 0⟩

/-- Witness for `C6_configure_rejects_bad_joint`: configuring `badInfo`
(first joint has zero command interfaces) from the fresh state fails and
leaves the status `UNCONFIGURED`. -/
theorem C6_configure_rejects_bad_joint_witness :
    badJoint ∈ badInfo.joints ∧ jointShapeOk badJoint = false ∧
    ((configure true (some (1, 1)) badInfo initialState).1 = ReturnType.ERROR ∧
     (configure true (some (1, 1)) badInfo initialState).2.status = initialState.status) :=
  ⟨List.mem_cons_self _ _, rfl,
   C6_configure_rejects_bad_joint true (some (1, 1)) badInfo initialState badJoint
     (List.mem_cons_self _ _) rfl⟩

/-- A started state with all joint entries finite, used to exercise the
frame property of calibration on non-NaN entries. -/
def t10State : State :=
  ⟨Status.STARTED, [some 0, some 0], [some 0, some 0], [some 0, some 0],
   [some 0, some 0], 1, 1, 1⟩

/-- C10: calibration only writes the offset vector — position, velocity,
command vectors and the status are untouched by `resetTravelOffset` (for
*every* state `t`) — and on a freshly constructed object (all four vectors
empty, so `resize(n, NaN)` fills them with NaN) the position, velocity and
command vectors immediately after `configure` (whatever its result) hold
one NaN entry per joint, until `start()` seeds them. -/
theorem C10_calibration_touches_only_offsets (encData : Option (ℚ × ℚ))
    (info : HardwareInfo) (s t : State)
    (hfp : s.hw_states_position = [])
    (hfv : s.hw_states_velocity = [])
    (hfc : s.hw_commands = []) :
    (resetTravelOffset encData t).hw_states_position = t.hw_states_position ∧
    (resetTravelOffset encData t).hw_states_velocity = t.hw_states_velocity ∧
    (resetTravelOffset encData t).hw_commands = t.hw_commands ∧
    (resetTravelOffset encData t).status = t.status ∧
    (configure true encData info s).2.hw_states_position =
      List.replicate info.joints.length none ∧
    (configure true encData info s).2.hw_states_velocity =
      List.replicate info.joints.length none ∧
    (configure true encData info s).2.hw_commands =
      List.replicate info.joints.length none := by
  refine ⟨resetTravelOffset_pos encData t, resetTravelOffset_vel encData t,
          resetTravelOffset_cmd encData t, resetTravelOffset_status encData t, ?_, ?_, ?_⟩ <;>
    · simp only [configure, Bool.not_true, Bool.false_eq_true, if_false]
      split <;>
        simp [resetTravelOffset_pos, resetTravelOffset_vel, resetTravelOffset_cmd,
              hfp, hfv, hfc, resizeVec]

/-- Witness for `C10_calibration_touches_only_offsets` at the fresh state
(configure side) and a fully seeded state (calibration frame side). -/
theorem C10_calibration_touches_only_offsets_witness :
    (initialState.hw_states_position = [] ∧
     initialState.hw_states_velocity = [] ∧
     initialState.hw_commands = []) ∧
    ((resetTravelOffset (some (1, 1)) t10State).hw_states_position =
       t10State.hw_states_position ∧
     (resetTravelOffset (some (1, 1)) t10State).hw_states_velocity =
       t10State.hw_states_velocity ∧
     (resetTravelOffset (some (1, 1)) t10State).hw_commands = t10State.hw_commands ∧
     (resetTravelOffset (some (1, 1)) t10State).status = t10State.status ∧
     (configure true (some (1, 1)) sampleInfo initialState).2.hw_states_position =
       List.replicate sampleInfo.joints.length none ∧
     (configure true (some (1, 1)) sampleInfo initialState).2.hw_states_velocity =
       List.replicate sampleInfo.joints.length none ∧
     (configure true (some (1, 1)) sampleInfo initialState).2.hw_commands =
       List.replicate sampleInfo.joints.length none) :=
  ⟨⟨rfl, rfl, rfl⟩,
   C10_calibration_touches_only_offsets (some (1, 1)) sampleInfo initialState t10State
     rfl rfl rfl⟩

/-- C3 (code bug): when the initial encoder read fails during `configure`
(`encData = none`), `resetTravelOffset` only logs `RCLCPP_FATAL` — it is a
`void` function — so `configure` proceeds, returns `OK`, and transitions to
`CONFIGURED` with the offsets still NaN.  Every other `RCLCPP_FATAL` in the
source is immediately followed by `return ERROR`; the claim (and spec §7)
says a failed calibration must abort configuration. -/
theorem C3_configure_succeeds_despite_failed_calibration :
    (configure true none sampleInfo initialState).1 = ReturnType.OK ∧
    (configure true none sampleInfo initialState).2.status = Status.CONFIGURED ∧
    (configure true none sampleInfo initialState).2.hw_states_position_offset =
      [none, none] := by
  refine ⟨rfl, rfl, rfl⟩

/-- The state immediately after a successful `configure` whose calibration
read the raw travel sample `(1.0 m, 1.0 m)`: both offsets hold
`linearToAngular 1.0 = 10000/1651 ≈ 6.057 rad`, while positions, velocities
and commands are still NaN. -/
def calibratedState : State := (configure true (some (1, 1)) sampleInfo initialState).2

/-- `calibratedState` spelt out. -/
theorem calibratedState_eq :
    calibratedState =
      ⟨Status.CONFIGURED, [none, none], [some (10000/1651), some (10000/1651)],
       [none, none], [none, none], 1651/5000, 3, 1⟩ := by
  show (configure true (some (1, 1)) sampleInfo initialState).2 = _
  norm_num [configure, sampleInfo, initialState, resetTravelOffset, jointShapeOk,
            goodJoint, List.range_succ, linearToAngular, travelAt, resizeVec,
            List.replicate_succ, List.replicate_zero]

/-- Element access into a list built by `mapIdx`. -/
theorem getD_mapIdx {α : Type} (l : List α) (f : ℕ → α → α) (i : ℕ)
    (hi : i < l.length) (d : α) :
    (l.mapIdx f).getD i d = f i (l.getD i d) := by
  simp [List.getD_eq_getElem?_getD, List.getElem?_mapIdx, List.getElem?_eq_getElem hi]

/-- C5 counterexample: after the successful calibration inside `configure`,
offset 0 holds the finite value `10000/1651` (≈ 6.057 rad) — not NaN — yet
`start()` overwrites it with `0`, because its seeding is gated on the
*position* entry being NaN, and calibration leaves positions NaN.  This
refutes "leaves every entry that already holds a non-NaN value unchanged;
in particular a positionOffset entry set by calibration during configure is
not overwritten by start()". -/
theorem C5_counterexample :
    calibratedState.hw_states_position_offset.getD 0 none = some (10000/1651) ∧
    (some ((10000:ℚ)/1651) : Option ℚ) ≠ some 0 ∧
    (start calibratedState).2.hw_states_position_offset.getD 0 none = some 0 := by
  rw [calibratedState_eq]
  refine ⟨rfl, by norm_num, ?_⟩
  norm_num [start, posIsNaNAt]

/-- C5 amended: `start()` zeroes the position, offset, velocity and command
entries of exactly those joints whose *position* entry is NaN — even when
the offset (or any other entry) already holds a finite value, such as a
calibrated offset — and leaves all four entries unchanged for joints whose
position entry is non-NaN; it returns `OK` and transitions to `STARTED`. -/
theorem C5_amended_start_gates_on_position_nan (s : State) (i : ℕ)
    (hip : i < s.hw_states_position.length)
    (hio : i < s.hw_states_position_offset.length)
    (hiv : i < s.hw_states_velocity.length)
    (hic : i < s.hw_commands.length) :
    (s.hw_states_position.getD i none = none →
      (start s).2.hw_states_position.getD i none = some 0 ∧
      (start s).2.hw_states_position_offset.getD i none = some 0 ∧
      (start s).2.hw_states_velocity.getD i none = some 0 ∧
      (start s).2.hw_commands.getD i none = some 0) ∧
    (s.hw_states_position.getD i none ≠ none →
      (start s).2.hw_states_position.getD i none = s.hw_states_position.getD i none ∧
      (start s).2.hw_states_position_offset.getD i none =
        s.hw_states_position_offset.getD i none ∧
      (start s).2.hw_states_velocity.getD i none = s.hw_states_velocity.getD i none ∧
      (start s).2.hw_commands.getD i none = s.hw_commands.getD i none) ∧
    (start s).1 = ReturnType.OK ∧ (start s).2.status = Status.STARTED := by
  have hget : s.hw_states_position.get? i = some (s.hw_states_position.getD i none) := by
    rw [List.get?_eq_getElem?, List.getElem?_eq_getElem hip, List.getD_eq_getElem?_getD,
        List.getElem?_eq_getElem hip]
    rfl
  refine ⟨?_, ?_, rfl, rfl⟩
  · intro hz
    have hb : posIsNaNAt s i = true := by
      unfold posIsNaNAt
      rw [hget, hz]
      rfl
    refine ⟨?_, ?_, ?_, ?_⟩
    · rw [show (start s).2.hw_states_position =
          s.hw_states_position.mapIdx (fun j p => if posIsNaNAt s j then some 0 else p)
        from rfl, getD_mapIdx _ _ _ hip, hb]
      simp
    · rw [show (start s).2.hw_states_position_offset =
          s.hw_states_position_offset.mapIdx (fun j o => if posIsNaNAt s j then some 0 else o)
        from rfl, getD_mapIdx _ _ _ hio, hb]
      simp
    · rw [show (start s).2.hw_states_velocity =
          s.hw_states_velocity.mapIdx (fun j v => if posIsNaNAt s j then some 0 else v)
        from rfl, getD_mapIdx _ _ _ hiv, hb]
      simp
    · rw [show (start s).2.hw_commands =
          s.hw_commands.mapIdx (fun j c => if posIsNaNAt s j then some 0 else c)
        from rfl, getD_mapIdx _ _ _ hic, hb]
      simp
  · intro hnz
    have hb : posIsNaNAt s i = false := by
      unfold posIsNaNAt
      rw [hget]
      cases hv : s.hw_states_position.getD i none
      · exact absurd hv hnz
      · rfl
    refine ⟨?_, ?_, ?_, ?_⟩
    · rw [show (start s).2.hw_states_position =
          s.hw_states_position.mapIdx (fun j p => if posIsNaNAt s j then some 0 else p)
        from rfl, getD_mapIdx _ _ _ hip, hb]
      simp
    · rw [show (start s).2.hw_states_position_offset =
          s.hw_states_position_offset.mapIdx (fun j o => if posIsNaNAt s j then some 0 else o)
        from rfl, getD_mapIdx _ _ _ hio, hb]
      simp
    · rw [show (start s).2.hw_states_velocity =
          s.hw_states_velocity.mapIdx (fun j v => if posIsNaNAt s j then some 0 else v)
        from rfl, getD_mapIdx _ _ _ hiv, hb]
      simp
    · rw [show (start s).2.hw_commands =
          s.hw_commands.mapIdx (fun j c => if posIsNaNAt s j then some 0 else c)
        from rfl, getD_mapIdx _ _ _ hic, hb]
      simp

/-- A one-joint state whose position is NaN while its offset already holds
the finite value `9`. -/
def c5State : State :=
  ⟨Status.CONFIGURED, [none], [some 9], [none], [none], 1, 1, 1⟩

/-- Witness for `C5_amended_start_gates_on_position_nan` at `c5State`,
joint 0. -/
theorem C5_amended_start_gates_on_position_nan_witness :
    ((0:ℕ) < c5State.hw_states_position.length ∧
     (0:ℕ) < c5State.hw_states_position_offset.length ∧
     (0:ℕ) < c5State.hw_states_velocity.length ∧
     (0:ℕ) < c5State.hw_commands.length) ∧
    ((c5State.hw_states_position.getD 0 none = none →
      (start c5State).2.hw_states_position.getD 0 none = some 0 ∧
      (start c5State).2.hw_states_position_offset.getD 0 none = some 0 ∧
      (start c5State).2.hw_states_velocity.getD 0 none = some 0 ∧
      (start c5State).2.hw_commands.getD 0 none = some 0) ∧
     (c5State.hw_states_position.getD 0 none ≠ none →
      (start c5State).2.hw_states_position.getD 0 none =
        c5State.hw_states_position.getD 0 none ∧
      (start c5State).2.hw_states_position_offset.getD 0 none =
        c5State.hw_states_position_offset.getD 0 none ∧
      (start c5State).2.hw_states_velocity.getD 0 none =
        c5State.hw_states_velocity.getD 0 none ∧
      (start c5State).2.hw_commands.getD 0 none = c5State.hw_commands.getD 0 none) ∧
     (start c5State).1 = ReturnType.OK ∧ (start c5State).2.status = Status.STARTED) :=
  ⟨⟨by decide, by decide, by decide, by decide⟩,
   C5_amended_start_gates_on_position_nan c5State 0
     (by decide) (by decide) (by decide) (by decide)⟩

/-- C4 counterexample: immediately after the successful calibration inside
`configure` the joint positions still hold NaN, so the first update with
the identical raw sample `(1.0, 1.0)` computes `delta = NaN` — not ≈ 0 —
leaves the position NaN (not ≈ 0), and (taking the `|delta| < 1.0`
comparison to be false, as it is for NaN) even poisons the offset to NaN. -/
theorem C4_counterexample :
    calibratedState.hw_states_position.getD 0 none = none ∧
    (updateJointsFromHardware (some (1, 1)) none
      calibratedState).hw_states_position.getD 0 none = none ∧
    (updateJointsFromHardware (some (1, 1)) none
      calibratedState).hw_states_position_offset.getD 0 none = none ∧
    (none : Option ℚ) ≠ some 0 := by
  rw [calibratedState_eq]
  exact ⟨rfl, rfl, rfl, by simp⟩

/-- C4 amended: when a joint position holds exactly `0` at update time (as
after `start()` has seeded it) and the offset holds the value set by
`resetTravelOffset` from sample `t`, the first update with the identical
sample `t` computes `delta = 0` exactly, so the position stays exactly `0`
and the offset keeps its calibrated value
`linearToAngular(t) ` (for `wheel_diameter = 0.3302` and `t = 1.0` m this
offset is `10000/1651 ≈ 6.057` rad, not 6.054). -/
theorem C4_amended_zero_delta_when_position_zero (s : State) (enc : ℚ × ℚ) (i : ℕ)
    (hip : i < s.hw_states_position.length)
    (hio : i < s.hw_states_position_offset.length)
    (hp : s.hw_states_position.getD i none = some 0) :
    (resetTravelOffset (some enc) s).hw_states_position_offset.getD i none =
      some (linearToAngular s.wheel_diameter (travelAt enc i)) ∧
    (updateJointsFromHardware (some enc) none
      (resetTravelOffset (some enc) s)).hw_states_position.getD i none = some 0 ∧
    (updateJointsFromHardware (some enc) none
      (resetTravelOffset (some enc) s)).hw_states_position_offset.getD i none =
      some (linearToAngular s.wheel_diameter (travelAt enc i)) := by
  have h1 := resetTravelOffset_off_getD enc s i hio
  have hpos := resetTravelOffset_pos (some enc) s
  have hip' : i < (resetTravelOffset (some enc) s).hw_states_position.length := by
    rw [hpos]; exact hip
  refine ⟨h1, ?_, ?_⟩
  · rw [update_enc_pos_getD _ enc none i hip', resetTravelOffset_wd, hpos, hp, h1]
    simp [updatePositionJoint, nsub, nadd, nabsLt]
  · rw [update_enc_off_getD _ enc none i hip', resetTravelOffset_wd, hpos, hp, h1]
    simp [updatePositionJoint, nsub, nadd, nabsLt]

/-- The two-joint state after `start()` has seeded an uncalibrated system:
positions, offsets, velocities and commands all `0`, wheel diameter
0.3302 m. -/
def seededState : State :=
  ⟨Status.STARTED, [some 0, some 0], [some 0, some 0], [some 0, some 0],
   [some 0, some 0], 1651/5000, 3, 1⟩

/-- Witness for `C4_amended_zero_delta_when_position_zero`: calibrating
`seededState` with the spec scenario sample `(1.0 m, 1.0 m)` puts
`10000/1651` in the offset, and the identical next sample leaves the
position at exactly `0`. -/
theorem C4_amended_zero_delta_when_position_zero_witness :
    ((0:ℕ) < seededState.hw_states_position.length ∧
     (0:ℕ) < seededState.hw_states_position_offset.length ∧
     seededState.hw_states_position.getD 0 none = some 0) ∧
    ((resetTravelOffset (some (1, 1)) seededState).hw_states_position_offset.getD 0 none =
      some (linearToAngular seededState.wheel_diameter (travelAt (1, 1) 0)) ∧
     (updateJointsFromHardware (some (1, 1)) none
       (resetTravelOffset (some (1, 1)) seededState)).hw_states_position.getD 0 none =
       some 0 ∧
     (updateJointsFromHardware (some (1, 1)) none
       (resetTravelOffset (some (1, 1)) seededState)).hw_states_position_offset.getD 0 none =
       some (linearToAngular seededState.wheel_diameter (travelAt (1, 1) 0))) ∧
    linearToAngular seededState.wheel_diameter (travelAt (1, 1) 0) = 10000/1651 :=
  ⟨⟨by decide, by decide, rfl⟩,
   C4_amended_zero_delta_when_position_zero seededState (1, 1) 0
     (by decide) (by decide) rfl,
   by norm_num [linearToAngular, travelAt, seededState]⟩

/-- A configured-but-not-started state: finite joint state, commanded
velocities 2 rad/s each, wheel diameter 1, `max_accel` 5, `max_speed` 1. -/
def preStartState : State :=
  ⟨Status.CONFIGURED, [some 0, some 0], [some 0, some 0], [some 0, some 0],
   [some 2, some 2], 1, 5, 1⟩

/-- C9 counterexample: in the `CONFIGURED` state — before `start()` — a
`read()` with an available travel sample returns `OK` (it does not fail)
and mutates joint 0's position from `0` to `1/2`, and a `write()` returns
`OK` and dispatches a `controlSpeed(1, 1, 5, 5)` command to the drivetrain.
This refutes "calling read() or write() before start() fails or is a no-op,
and never mutates joint state or dispatches commands". -/
theorem C9_counterexample :
    preStartState.status = Status.CONFIGURED ∧
    (read (some (1/4, 1/4)) none preStartState).1 = ReturnType.OK ∧
    preStartState.hw_states_position.getD 0 none = some 0 ∧
    (read (some (1/4, 1/4)) none preStartState).2.hw_states_position.getD 0 none =
      some (1/2) ∧
    (some ((1:ℚ)/2) : Option ℚ) ≠ some 0 ∧
    (write preStartState).1 = ReturnType.OK ∧
    (write preStartState).2.2 = ⟨some 1, some 1, 5, 5⟩ := by
  refine ⟨rfl, rfl, rfl, ?_, by norm_num, rfl, ?_⟩
  · have h : |(1:ℚ)/2| < 1 := by
      rw [abs_of_pos] <;> norm_num
    norm_num [read, updateJointsFromHardware, updatePositionJoint, nsub, nadd, nabsLt,
              preStartState, linearToAngular, travelAt, List.range_succ, h]
  · norm_num [write, writeCommandsToHardware, limitDifferentialSpeedN,
              limitDifferentialSpeed, preStartState, angularToLinear]

/-- C9 amended: the source guards neither `read()` nor `write()` with a
lifecycle-state check: both always return `OK`, the effect of `read()` on
the joint state and the command dispatched by `write()` are identical in
every lifecycle state, and `write()` always produces the full
`writeCommandsToHardware` dispatch (it is never a no-op). -/
theorem C9_amended_no_lifecycle_guard (s : State) (st st' : Status)
    (encData spdData : Option (ℚ × ℚ)) :
    (read encData spdData s).1 = ReturnType.OK ∧
    (write s).1 = ReturnType.OK ∧
    (read encData spdData { s with status := st }).2.hw_states_position =
      (read encData spdData { s with status := st' }).2.hw_states_position ∧
    (read encData spdData { s with status := st }).2.hw_states_position_offset =
      (read encData spdData { s with status := st' }).2.hw_states_position_offset ∧
    (read encData spdData { s with status := st }).2.hw_states_velocity =
      (read encData spdData { s with status := st' }).2.hw_states_velocity ∧
    (write { s with status := st }).2.2 = (write { s with status := st' }).2.2 ∧
    (write s).2.2 = writeCommandsToHardware s := by
  refine ⟨rfl, rfl, ?_, ?_, ?_, rfl, rfl⟩ <;>
    cases encData <;> cases spdData <;> rfl

end HuskyBase
